import Mathlib

/-!
# hacktron-backend: the user controller

A shallow embedding of `controllers/userController.js`.  Each Express handler
becomes a pure function from the collaborators, the user store and the request
to an `Outcome`: the response object as the handler left it, the message of the
`Error` it threw (if any), the mutating store calls it made, and the store
afterwards.

A value of `req.body` is whatever the JSON body parser produced for that key, so
it need not be a string; the handlers never check the type of what they read.
-/

namespace Hacktron

/-! ## Data model -/

/-- A value read from `req.body`: the key is absent (`undefined`), or it holds a
JSON scalar.  Numbers are represented by integers.  JSON arrays and objects are
left out: what the User model, which is not among the sources, does with them
cannot be read off the controller. -/
inductive Value where
  | undefined
  | null
  | bool (b : Bool)
  | num (n : Int)
  | str (s : String)
deriving DecidableEq, Repr

/-- A user document as the handlers see it.  The fields hold what the handlers
handed to the User model. -/
structure User where
  _id : Nat
  name : Value
  email : Value
  password : Value
  phone : Value
deriving DecidableEq, Repr

/-- The collection behind the `User` model, in insertion order. -/
abbrev Store := List User

/-- The library collaborators of the controller: bcryptjs and jsonwebtoken
(with `process.env.JWT_SECRET` and the clock fixed). -/
structure Env where
  /-- The one-way hash bcryptjs computes for a plaintext (`bcrypt.hash`).  No handler
  calls it. -/
  hash : String → String
  /-- The function `bcrypt.compare(candidate, stored)` on two strings. -/
  compare : String → String → Bool
  /-- The call `jwt.sign({ id }, JWT_SECRET, { expiresIn: "1d" })`. -/
  sign : Nat → String
  /-- The call `jwt.verify(token, JWT_SECRET)`: the decoded `id`, or `none` when it throws. -/
  verify : String → Option Nat

/-- The parts of `req` the handlers read: `req.body.*` and `req.cookies.token`. -/
structure Req where
  name : Value := .undefined
  email : Value := .undefined
  password : Value := .undefined
  phone : Value := .undefined
  oldPassword : Value := .undefined
  token : Option String := none
deriving DecidableEq, Repr

/-- What a handler passes to `res.json` / `res.send`. -/
inductive Payload where
  | user (_id : Nat) (name email phone : Value) (token : Option String)
  | bool (b : Bool)
  | text (s : String)
deriving DecidableEq, Repr

/-- The Express response object: `statusCode` starts at 200, no cookie, nothing sent. -/
structure Res where
  statusCode : Nat := 200
  cookie : Option String := none
  sent : Option Payload := none
deriving DecidableEq, Repr

/-- A mutating call on the `User` model, with the values the handler handed over. -/
inductive StoreCall where
  | create (name email password phone : Value)
  | save (doc : User)
deriving DecidableEq, Repr

/-- The result of running a handler. -/
structure Outcome where
  res : Res
  error : Option String
  calls : List StoreCall
  store : Store
deriving DecidableEq, Repr

/-! ## JavaScript primitives -/

/-- JavaScript truthiness: `undefined`, `null`, `false`, `0` and the empty string
are falsy, every other value is truthy. -/
def truthy : Value → Bool
  | .undefined => false
  | .null => false
  | .bool b => b
  | .num n => decide (n ≠ 0)
  | .str s => decide (s ≠ "")

/-- Truthiness of `req.cookies.token`, a string when the cookie was sent. -/
def tokenTruthy : Option String → Bool
  | none => false
  | some s => decide (s ≠ "")

/-- The `.length` of a JavaScript string: its number of UTF-16 code units. -/
def jsLength (s : String) : Nat :=
  (s.toList.map (fun c => if c.toNat < 65536 then 1 else 2)).sum

/-- The test `v.length < n` on a truthy value `v`: a string has its length; a number
or a boolean has no `length` property, so the test reads `undefined < n`, which
is false. -/
def lengthBelow (v : Value) (n : Nat) : Bool :=
  match v with
  | .str s => decide (jsLength s < n)
  | _ => false

/-- The expression `a || b`. -/
def orElse (a b : Value) : Value :=
  if truthy a then a else b

/-- The operator `typeof`. -/
def jsTypeof : Value → String
  | .undefined => "undefined"
  | .null => "object"
  | .bool _ => "boolean"
  | .num _ => "number"
  | .str _ => "string"

/-- The call `bcrypt.compare(s, hash)` of bcryptjs: it compares two strings and
rejects (`none`) when either argument is not a string. -/
def bcryptCompare (env : Env) (s hash : Value) : Option Bool :=
  match s, hash with
  | .str s, .str h => some (env.compare s h)
  | _, _ => none

/-- The message bcryptjs rejects with when an argument is not a string. -/
def illegalArguments (s hash : Value) : String :=
  "Illegal arguments: " ++ jsTypeof s ++ ", " ++ jsTypeof hash

/-- The call `res.status(code)`. -/
def Res.status (res : Res) (code : Nat) : Res := { res with statusCode := code }

/-- The call `res.cookie("token", value, ...)`. -/
def Res.setCookie (res : Res) (value : String) : Res := { res with cookie := some value }

/-- The calls `res.json(payload)` and `res.send(payload)`. -/
def Res.json (res : Res) (payload : Payload) : Res := { res with sent := some payload }

/-! ## The User model -/

/-- The query `User.findOne({ email })`. -/
def findOne (store : Store) (email : Value) : Option User :=
  store.find? (fun u => decide (u.email = email))

/-- The query `User.findById(id)`. -/
def findById (store : Store) (id : Nat) : Option User :=
  store.find? (fun u => decide (u._id = id))

/-- Modelled from the spec: the identifier the User Store assigns on creation
(`models/userModel.js` and the database are not among the sources): one not yet
in use. -/
def nextId (store : Store) : Nat :=
  (store.map (fun u => u._id)).foldr max 0 + 1

/-- Modelled from the spec: `User.create` of `models/userModel.js`, which is not among
the sources.  The User Store persists the record it is handed, under an
identifier it assigns, and returns it. -/
def create (store : Store) (name email password phone : Value) : Store × User :=
  let user : User :=
    { _id := nextId store, name := name, email := email, password := password, phone := phone }
  (store ++ [user], user)

/-- Modelled from the spec: `user.save()` of `models/userModel.js`, which is not among
the sources.  The User Store updates in place: the document replaces the record
that has its identifier, and is returned. -/
def save (store : Store) (doc : User) : Store × User :=
  (store.map (fun u => if u._id = doc._id then doc else u), doc)

/-! ## The handlers -/

/-- Source: `generateToken` (lines 9-11). -/
def generateToken (env : Env) (id : Nat) : String := env.sign id

/-- A handler that throws `new Error(msg)` with the response in state `res`. -/
def raise (res : Res) (msg : String) (store : Store) : Outcome :=
  { res := res, error := some msg, calls := [], store := store }

/-- Source: `registerUser` (lines 14-68).  `User.create` resolves to a document, so
the `else` branch of `if (user)` (lines 64-67) is never taken. -/
def registerUser (env : Env) (store : Store) (req : Req) : Outcome :=
  let res : Res := {}
  if !truthy req.name || !truthy req.email || !truthy req.password || !truthy req.phone then
    raise (res.status 400) "Please fill in all required fields" store
  else if lengthBelow req.password 6 then
    raise (res.status 400) "Password must be up to 6 characters" store
  else
    match findOne store req.email with
    | some _ => raise (res.status 400) "Email has already been registered" store
    | none =>
      let (store1, user) := create store req.name req.email req.password req.phone
      let token := generateToken env user._id
      let res := res.setCookie token
      { res := (res.status 201).json
          (.user user._id user.name user.email user.phone (some token)),
        error := none,
        calls := [.create req.name req.email req.password req.phone],
        store := store1 }

/-- Source: `loginUser` (lines 71-117).  When `bcrypt.compare` rejects, the handler
throws with the response as it stands. -/
def loginUser (env : Env) (store : Store) (req : Req) : Outcome :=
  let res : Res := {}
  if !truthy req.email || !truthy req.password then
    raise (res.status 400) "Please add email and password" store
  else
    match findOne store req.email with
    | none => raise (res.status 400) "User not found, please signup" store
    | some user =>
      match bcryptCompare env req.password user.password with
      | none => raise res (illegalArguments req.password user.password) store
      | some passwordIsCorrect =>
        let token := generateToken env user._id
        let res := if passwordIsCorrect then res.setCookie token else res
        if passwordIsCorrect then
          { res := (res.status 200).json
              (.user user._id user.name user.email user.phone (some token)),
            error := none, calls := [], store := store }
        else
          raise (res.status 400) "Invalid email or password" store

/-- The `try` block shared by `getUser`, `updateUser` and `changePassword`
(lines 136-143, 201-208, 238-245): `jwt.verify`, `User.findById`, and the 404
throw.  Returns the response state and either the thrown message or the user. -/
def tryResolve (env : Env) (store : Store) (res : Res) (token : String) :
    Res × Except String User :=
  match env.verify token with
  | none => (res, .error "jwt.verify failed")
  | some id =>
    match findById store id with
    | none => (res.status 404, .error "User not found")
    | some user => (res, .ok user)

/-- The `try`/`catch` shared by `getUser`, `updateUser` and `changePassword`
(lines 136-148, 201-213, 238-250): whatever the `try` block throws is caught,
the status is set to 401 and a new error is thrown. -/
def resolveUser (env : Env) (store : Store) (res : Res) (token : String) :
    Res × Except String User :=
  match tryResolve env store res token with
  | (res1, .error _) => (res1.status 401, .error "Not authorized, token failed")
  | (res1, .ok user) => (res1, .ok user)

/-- Source: `getUser` (lines 132-162).  After the `try`/`catch` the variable `user`
holds a document, so the `else` branch of `if (user)` (lines 158-161) is never
taken. -/
def getUser (env : Env) (store : Store) (req : Req) : Outcome :=
  let res : Res := {}
  if !tokenTruthy req.token then raise res "No Token Found" store
  else
    match resolveUser env store res (req.token.getD "") with
    | (res1, .error msg) => raise res1 msg store
    | (res1, .ok user) =>
      { res := (res1.status 200).json (.user user._id user.name user.email user.phone none),
        error := none, calls := [], store := store }

/-- Source: `loginStatus` (lines 183-194).  `jwt.verify` either returns the decoded
payload, an object and so truthy, or throws; nothing catches the throw. -/
def loginStatus (env : Env) (store : Store) (req : Req) : Outcome :=
  let res : Res := {}
  if !tokenTruthy req.token then
    { res := res.json (.bool false), error := none, calls := [], store := store }
  else
    match env.verify (req.token.getD "") with
    | none => raise res "jwt.verify failed" store
    | some _ => { res := res.json (.bool true), error := none, calls := [], store := store }

/-- Source: `updateUser` (lines 197-232).  The `else` branch of `if (user)`
(lines 228-231) is never taken. -/
def updateUser (env : Env) (store : Store) (req : Req) : Outcome :=
  let res : Res := {}
  if !tokenTruthy req.token then raise res "No Token Found" store
  else
    match resolveUser env store res (req.token.getD "") with
    | (res1, .error msg) => raise res1 msg store
    | (res1, .ok user) =>
      let doc : User :=
        { user with email := user.email,
                    name := orElse req.name user.name,
                    phone := orElse req.phone user.phone }
      let (store1, updatedUser) := save store doc
      { res := (res1.status 200).json
          (.user updatedUser._id updatedUser.name updatedUser.email updatedUser.phone none),
        error := none, calls := [.save doc], store := store1 }

/-- Source: `changePassword` (lines 234-276).  After the `try`/`catch` the variable
`user` holds a document, so the check of lines 254-257 never fires.  When
`bcrypt.compare` rejects, the handler throws with the response as it stands. -/
def changePassword (env : Env) (store : Store) (req : Req) : Outcome :=
  let res : Res := {}
  if !tokenTruthy req.token then raise res "No Token Found" store
  else
    match resolveUser env store res (req.token.getD "") with
    | (res1, .error msg) => raise res1 msg store
    | (res1, .ok user) =>
      if !truthy req.oldPassword || !truthy req.password then
        raise (res1.status 400) "Please add old and new password" store
      else
        match bcryptCompare env req.oldPassword user.password with
        | none => raise res1 (illegalArguments req.oldPassword user.password) store
        | some passwordIsCorrect =>
          if passwordIsCorrect then
            let doc : User := { user with password := req.password }
            let (store1, _) := save store doc
            { res := (res1.status 200).json (.text "Password change successful"),
              error := none, calls := [.save doc], store := store1 }
          else
            raise (res1.status 400) "Old password is incorrect" store

/-! ## A concrete environment -/

/-- A toy hasher and codec for evaluating the handlers: the hash of `p` is `#p`, the
token for `id` is the letter `t` written `id + 1` times. -/
def demoEnv : Env where
  hash := fun p => "#" ++ p
  compare := fun p h => decide (h = "#" ++ p)
  sign := fun id => String.mk (List.replicate (id + 1) 't')
  verify := fun t =>
    if t ≠ "" ∧ t.toList.all (fun c => decide (c = 't')) then some (t.length - 1) else none

/-- The user of the spec's concrete scenario, stored with the hash of "secret1" as
password. -/
def ada : User :=
  { _id := 1, name := .str "Ada", email := .str "ada@x.com", password := .str "#secret1",
    phone := .str "555-0100" }

/-- The registration of the spec's concrete scenario. -/
def adaRegister : Req :=
  { name := .str "Ada", email := .str "ada@x.com", password := .str "secret1",
    phone := .str "555-0100" }

/-- The same registration with the JSON number 12345 as password. -/
def numericRegister : Req :=
  { name := .str "Ada", email := .str "ada@x.com", password := .num 12345,
    phone := .str "555-0100" }

/-- A password change by the stored user `ada`, whose token is `tt`. -/
def adaChange : Req :=
  { token := some "tt", oldPassword := .str "secret1", password := .str "secret2" }

/-- An update by `ada` that supplies only a phone number and a different email. -/
def adaUpdate : Req :=
  { token := some "tt", phone := .str "555-0199", email := .str "eve@x.com" }

/-- A password change by `ada` with a wrong old password. -/
def adaWrongChange : Req :=
  { token := some "tt", oldPassword := .str "guess", password := .str "secret2" }

/-! ## Specification predicates -/

/-- A body value that is a string or missing (`undefined` or `null`). -/
def textual (v : Value) : Prop :=
  v = .undefined ∨ v = .null ∨ ∃ s, v = .str s

/-- A body value that is missing or the empty string. -/
def missingOrEmpty (v : Value) : Prop :=
  v = .undefined ∨ v = .null ∨ v = .str ""

/-- The conditions under which registration is refused: a field missing or empty,
a password of fewer than six UTF-16 code units, or an email already in the store. -/
def RegisterRefused (store : Store) (req : Req) : Prop :=
  missingOrEmpty req.name ∨ missingOrEmpty req.email ∨
  missingOrEmpty req.password ∨ missingOrEmpty req.phone ∨
  (∃ p, req.password = .str p ∧ jsLength p < 6) ∨
  (∃ u, findOne store req.email = some u)

/-- The invariant of the store: identifiers pairwise distinct, emails pairwise
distinct, no email falsy. -/
def StoreInv (store : Store) : Prop :=
  store.Pairwise (fun a b => a._id ≠ b._id) ∧
  store.Pairwise (fun a b => a.email ≠ b.email) ∧
  ∀ u ∈ store, truthy u.email = true

/-! ## Lemmas on the store -/

/-- In a list whose keys are pairwise distinct, searching for the key of a member
finds that member. -/
theorem find?_key_eq {β : Type} [DecidableEq β] (f : User → β) :
    ∀ (l : List User), l.Pairwise (fun a b => f a ≠ f b) → ∀ u ∈ l,
      l.find? (fun x => decide (f x = f u)) = some u := by
  intro l
  induction l with
  | nil => intro _ u hu; cases hu
  | cons x xs ih =>
    intro hp u hu
    rw [List.pairwise_cons] at hp
    rcases List.mem_cons.mp hu with rfl | hmem
    · simp [List.find?]
    · have hne : f x ≠ f u := hp.1 u hmem
      simp [List.find?, hne, ih hp.2 u hmem]

theorem findById_of_mem (store : Store) (u : User)
    (hids : store.Pairwise (fun a b => a._id ≠ b._id)) (hu : u ∈ store) :
    findById store u._id = some u :=
  find?_key_eq (fun v => v._id) store hids u hu

theorem findOne_of_mem (store : Store) (u : User)
    (hemails : store.Pairwise (fun a b => a.email ≠ b.email)) (hu : u ∈ store) :
    findOne store u.email = some u :=
  find?_key_eq (fun v => v.email) store hemails u hu

theorem mem_of_findOne {store : Store} {email : Value} {u : User}
    (h : findOne store email = some u) : u ∈ store ∧ u.email = email := by
  unfold findOne at h
  exact ⟨List.mem_of_find?_eq_some h, by simpa using List.find?_some h⟩

theorem mem_of_findById {store : Store} {id : Nat} {u : User}
    (h : findById store id = some u) : u ∈ store ∧ u._id = id := by
  unfold findById at h
  exact ⟨List.mem_of_find?_eq_some h, by simpa using List.find?_some h⟩

/-! ## Registration -/

/-- C1, as stated, fails: with the JSON number 12345 as password, five characters
when written out, no field is missing or empty and the email is not in the
store, yet registerUser calls User.create, sets the cookie and responds 201;
the test `password.length < 6` reads `undefined < 6` on a number. -/
theorem registerUser_numeric_password_example :
    numericRegister.password = .num 12345 ∧ jsLength "12345" < 6 ∧
    lengthBelow (.num 12345) 6 = false ∧
    findOne [] numericRegister.email = none ∧
    (registerUser demoEnv [] numericRegister).error = none ∧
    (registerUser demoEnv [] numericRegister).res.statusCode = 201 ∧
    (registerUser demoEnv [] numericRegister).res.cookie ≠ none ∧
    (registerUser demoEnv [] numericRegister).calls
      = [.create (.str "Ada") (.str "ada@x.com") (.num 12345) (.str "555-0100")] := by
  decide

/-- C1, amended: for every request body whose name, email, password and phone are
each a string or missing, registerUser throws with status 400, having made no
store call and set no cookie, exactly when a field is missing or empty, the
password is shorter than six, or the email is already stored; in every other
case it calls User.create once with the submitted name, email and phone and
responds 201. -/
theorem registerUser_contract (env : Env) (store : Store) (req : Req)
    (hname : textual req.name) (hemail : textual req.email)
    (hpassword : textual req.password) (hphone : textual req.phone) :
    (((registerUser env store req).error ≠ none ∧
        (registerUser env store req).res.statusCode = 400 ∧
        (registerUser env store req).calls = [] ∧
        (registerUser env store req).res.cookie = none) ↔ RegisterRefused store req) ∧
    (¬ RegisterRefused store req →
      ∃ name email password phone,
        req.name = .str name ∧ req.email = .str email ∧
        req.password = .str password ∧ req.phone = .str phone ∧
        (registerUser env store req).calls
          = [.create (.str name) (.str email) (.str password) (.str phone)] ∧
        (registerUser env store req).res.statusCode = 201 ∧
        (registerUser env store req).error = none) := by
  obtain ⟨n, e, p, ph, o, t⟩ := req
  simp only at hname hemail hpassword hphone
  unfold RegisterRefused
  rcases hname with rfl | rfl | ⟨n, rfl⟩ <;>
    try (simp [registerUser, raise, Res.status, truthy, missingOrEmpty]; done)
  rcases hemail with rfl | rfl | ⟨e, rfl⟩ <;>
    try (simp [registerUser, raise, Res.status, truthy, missingOrEmpty]; done)
  rcases hpassword with rfl | rfl | ⟨p, rfl⟩ <;>
    try (simp [registerUser, raise, Res.status, truthy, missingOrEmpty]; done)
  rcases hphone with rfl | rfl | ⟨ph, rfl⟩ <;>
    try (simp [registerUser, raise, Res.status, truthy, missingOrEmpty]; done)
  by_cases hn : n = "" <;> by_cases he : e = "" <;> by_cases hp : p = "" <;>
    by_cases hph : ph = "" <;>
    simp [registerUser, truthy, missingOrEmpty, hn, he, hp, hph, raise, Res.status]
  by_cases hl : jsLength p < 6 <;> simp [lengthBelow, hl, raise, Res.status]
  cases hf : findOne store (.str e) <;>
    simp [hf, raise, Res.status, create, generateToken, Res.setCookie, Res.json]

/-- Witness for C1: the registration of the spec's scenario on an empty store. -/
theorem registerUser_contract_witness :
    ∃ name email password phone,
      adaRegister.name = .str name ∧ adaRegister.email = .str email ∧
      adaRegister.password = .str password ∧ adaRegister.phone = .str phone ∧
      (registerUser demoEnv [] adaRegister).calls
        = [.create (.str name) (.str email) (.str password) (.str phone)] ∧
      (registerUser demoEnv [] adaRegister).res.statusCode = 201 ∧
      (registerUser demoEnv [] adaRegister).error = none :=
  (registerUser_contract demoEnv [] adaRegister
    (Or.inr (Or.inr ⟨_, rfl⟩)) (Or.inr (Or.inr ⟨_, rfl⟩))
    (Or.inr (Or.inr ⟨_, rfl⟩)) (Or.inr (Or.inr ⟨_, rfl⟩))).2
    (by simp [RegisterRefused, missingOrEmpty, adaRegister, findOne]; decide)


/-- C2, as stated, fails: registering "secret1" hands the string "secret1" to
User.create, and changing the password to "secret2" assigns the string "secret2"
before save; neither is the hash of what was submitted. -/
theorem handlers_hand_over_plaintext_example :
    (registerUser demoEnv [] adaRegister).error = none ∧
    (registerUser demoEnv [] adaRegister).calls
      = [.create (.str "Ada") (.str "ada@x.com") (.str "secret1") (.str "555-0100")] ∧
    demoEnv.hash "secret1" ≠ "secret1" ∧
    (changePassword demoEnv [ada] adaChange).error = none ∧
    (changePassword demoEnv [ada] adaChange).calls
      = [.save { ada with password := .str "secret2" }] ∧
    demoEnv.hash "secret2" ≠ "secret2" := by
  decide

/-- C2, amended: on every successful registerUser the password handed to
User.create is the submitted password itself, and on every successful
changePassword the value assigned to user.password before save is the submitted
new password itself. -/
theorem handlers_pass_submitted_password (env : Env) (store : Store) (req : Req) :
    ((registerUser env store req).error = none →
      ∃ name email password phone, req.password = password ∧
        (registerUser env store req).calls = [.create name email password phone]) ∧
    ((changePassword env store req).error = none →
      ∃ (user : User) (password : Value), req.password = password ∧
        (changePassword env store req).calls = [.save { user with password := password }]) := by
  constructor
  · simp only [registerUser]
    split_ifs
    · simp [raise]
    · simp [raise]
    · cases hf : findOne store req.email <;> simp [hf, raise, create]
  · simp only [changePassword]
    by_cases ht : (!tokenTruthy req.token) = true
    · simp [ht, raise]
    · rw [if_neg ht]
      rcases hr : resolveUser env store {} (req.token.getD "") with ⟨res1, _ | user⟩
      · simp [raise]
      · simp only []
        by_cases hp : (!truthy req.oldPassword || !truthy req.password) = true
        · simp [hp, raise]
        · rw [if_neg hp]
          cases hc : bcryptCompare env req.oldPassword user.password with
          | none => simp [raise]
          | some ok =>
            cases ok
            · simp [raise]
            · simp [save]
              exact ⟨user, rfl, rfl, rfl, rfl⟩

/-- Witness for C2: both handlers succeed in the concrete scenario. -/
theorem handlers_pass_submitted_password_witness :
    (∃ name email password phone, adaRegister.password = password ∧
        (registerUser demoEnv [] adaRegister).calls = [.create name email password phone]) ∧
    (∃ (user : User) (password : Value), adaChange.password = password ∧
        (changePassword demoEnv [ada] adaChange).calls
          = [.save { user with password := password }]) :=
  ⟨(handlers_pass_submitted_password demoEnv [] adaRegister).1 (by decide),
   (handlers_pass_submitted_password demoEnv [ada] adaChange).2 (by decide)⟩

/-! ## Login -/

/-- C3, as stated, fails: the email matches the stored user `ada`, the submitted
password is the empty string and does not verify, no cookie is set, yet the
error is "Please add email and password", not "Invalid email or password". -/
theorem loginUser_empty_password_example :
    findOne [ada] (.str "ada@x.com") = some ada ∧
    bcryptCompare demoEnv (.str "") ada.password = some false ∧
    (loginUser demoEnv [ada]
      { email := .str "ada@x.com", password := .str "" }).res.statusCode = 400 ∧
    (loginUser demoEnv [ada]
      { email := .str "ada@x.com", password := .str "" }).res.cookie = none ∧
    (loginUser demoEnv [ada] { email := .str "ada@x.com", password := .str "" }).error
      = some "Please add email and password" ∧
    (loginUser demoEnv [ada] { email := .str "ada@x.com", password := .str "" }).error
      ≠ some "Invalid email or password" := by
  decide

/-- C3, amended: for every login request with a non-empty email and a non-empty
password whose email matches a stored user, loginUser sets the cookie exactly
when the password verifies against the stored one; when it does not, the
handler throws "Invalid email or password" with status 400 and no cookie; when
it does, the response is 200 and carries the token that was put in the cookie. -/
theorem loginUser_cookie_iff (env : Env) (store : Store) (req : Req)
    (email password : String) (user : User)
    (hemail : req.email = .str email) (hpassword : req.password = .str password)
    (he : email ≠ "") (hp : password ≠ "")
    (hfound : findOne store (.str email) = some user) :
    ((loginUser env store req).res.cookie ≠ none ↔
        bcryptCompare env (.str password) user.password = some true) ∧
    (bcryptCompare env (.str password) user.password = some false →
        (loginUser env store req).res.statusCode = 400 ∧
        (loginUser env store req).error = some "Invalid email or password" ∧
        (loginUser env store req).res.cookie = none) ∧
    (bcryptCompare env (.str password) user.password = some true →
        (loginUser env store req).res.statusCode = 200 ∧
        (loginUser env store req).error = none ∧
        ∃ token, (loginUser env store req).res.cookie = some token ∧
          (loginUser env store req).res.sent
            = some (.user user._id user.name user.email user.phone (some token))) := by
  cases hc : bcryptCompare env (.str password) user.password with
  | none =>
    simp [loginUser, hemail, hpassword, truthy, he, hp, hfound, hc, raise]
  | some ok =>
    cases ok <;>
      simp [loginUser, hemail, hpassword, truthy, he, hp, hfound, hc, raise, Res.status,
        Res.setCookie, Res.json]

/-- Witness for C3: the stored user `ada` logging in with her password. -/
theorem loginUser_cookie_iff_witness :
    ((loginUser demoEnv [ada]
        { email := .str "ada@x.com", password := .str "secret1" }).res.cookie ≠ none ↔
      bcryptCompare demoEnv (.str "secret1") ada.password = some true) ∧
    (bcryptCompare demoEnv (.str "secret1") ada.password = some false →
        (loginUser demoEnv [ada]
          { email := .str "ada@x.com", password := .str "secret1" }).res.statusCode = 400 ∧
        (loginUser demoEnv [ada]
          { email := .str "ada@x.com", password := .str "secret1" }).error
          = some "Invalid email or password" ∧
        (loginUser demoEnv [ada]
          { email := .str "ada@x.com", password := .str "secret1" }).res.cookie = none) ∧
    (bcryptCompare demoEnv (.str "secret1") ada.password = some true →
        (loginUser demoEnv [ada]
          { email := .str "ada@x.com", password := .str "secret1" }).res.statusCode = 200 ∧
        (loginUser demoEnv [ada]
          { email := .str "ada@x.com", password := .str "secret1" }).error = none ∧
        ∃ token,
          (loginUser demoEnv [ada]
            { email := .str "ada@x.com", password := .str "secret1" }).res.cookie
            = some token ∧
          (loginUser demoEnv [ada]
            { email := .str "ada@x.com", password := .str "secret1" }).res.sent
            = some (.user ada._id ada.name ada.email ada.phone (some token))) :=
  loginUser_cookie_iff demoEnv [ada] { email := .str "ada@x.com", password := .str "secret1" }
    "ada@x.com" "secret1" ada rfl rfl (by decide) (by decide) (by decide)

/-! ## Token-bearing handlers -/

/-- C5: evaluated on a token that verifies to identifier 1 while the store is
empty, getUser ends with status 401 and "Not authorized, token failed", the
very outcome of a token that fails verification; the 404 "User not found" of
the try block is caught and replaced. -/
theorem getUser_absent_user_example :
    demoEnv.verify "tt" = some 1 ∧ findById [] 1 = none ∧
    (tryResolve demoEnv [] {} "tt").1.statusCode = 404 ∧
    (getUser demoEnv [] { token := some "tt" }).res.statusCode = 401 ∧
    (getUser demoEnv [] { token := some "tt" }).error = some "Not authorized, token failed" ∧
    demoEnv.verify "forged" = none ∧
    getUser demoEnv [] { token := some "tt" } = getUser demoEnv [] { token := some "forged" } := by
  decide

/-- C6: evaluated on a token that is present but fails verification, loginStatus
sends nothing and ends in a thrown error, where a token that verifies gets
`true` and an absent one `false`. -/
theorem loginStatus_bad_token_example :
    demoEnv.verify "forged" = none ∧
    (loginStatus demoEnv [ada] { token := some "forged" }).res.sent = none ∧
    (loginStatus demoEnv [ada] { token := some "forged" }).error ≠ none ∧
    (loginStatus demoEnv [ada] { token := some "tt" }).res.sent = some (.bool true) ∧
    (loginStatus demoEnv [ada] { token := some "tt" }).error = none ∧
    (loginStatus demoEnv [ada] {}).res.sent = some (.bool false) ∧
    (loginStatus demoEnv [ada] {}).error = none := by
  decide

/-- C7: on every request without a token cookie, getUser, updateUser and
changePassword throw "No Token Found" while the response status is still the
initial 200. -/
theorem no_token_throws_with_status_200 (env : Env) (store : Store) (req : Req) :
    (getUser env store { req with token := none }).error = some "No Token Found" ∧
    (getUser env store { req with token := none }).res.statusCode = 200 ∧
    (updateUser env store { req with token := none }).error = some "No Token Found" ∧
    (updateUser env store { req with token := none }).res.statusCode = 200 ∧
    (changePassword env store { req with token := none }).error = some "No Token Found" ∧
    (changePassword env store { req with token := none }).res.statusCode = 200 := by
  simp [getUser, updateUser, changePassword, tokenTruthy, raise]

/-! ## Round trip between login and getUser -/

/-- The toy codec decodes what it issues. -/
theorem demoEnv_verify_sign (id : Nat) : demoEnv.verify (demoEnv.sign id) = some id := by
  have h : (String.mk (List.replicate (id + 1) 't')) ≠ "" := by
    intro h
    have := congrArg String.length h
    simp at this
  simp [demoEnv, h]

/-- The toy codec never issues the empty string. -/
theorem demoEnv_sign_ne (id : Nat) : demoEnv.sign id ≠ "" := by
  intro h
  have := congrArg String.length h
  simp [demoEnv] at this

/-- C4: in a store with pairwise distinct identifiers and for a codec that
decodes every token it issues (tokens being non-empty strings), if loginUser
succeeds and returns identifier, name, email, phone and token T, then getUser
with cookie token T on the same store responds 200 with that identifier, name,
email and phone. -/
theorem login_getUser_roundtrip (env : Env) (store : Store) (req : Req)
    (id : Nat) (name email phone : Value) (T : String)
    (hids : store.Pairwise (fun a b => a._id ≠ b._id))
    (hcodec : ∀ i, env.verify (env.sign i) = some i)
    (hsign : ∀ i, env.sign i ≠ "")
    (hok : (loginUser env store req).error = none)
    (hsent : (loginUser env store req).res.sent = some (.user id name email phone (some T))) :
    (getUser env store { token := some T }).error = none ∧
    (getUser env store { token := some T }).res.statusCode = 200 ∧
    (getUser env store { token := some T }).res.sent = some (.user id name email phone none) ∧
    (getUser env store { token := some T }).store = store := by
  simp only [loginUser] at hok hsent
  split_ifs at hok hsent
  · simp [raise] at hok
  · cases hf : findOne store req.email with
    | none => simp [hf, raise] at hok
    | some user =>
      simp only [hf] at hok hsent
      cases hc : bcryptCompare env req.password user.password with
      | none => simp [hc, raise] at hok
      | some ok =>
        cases ok
        · simp [hc, raise] at hok
        · simp [hc, Res.status, Res.json, Res.setCookie, generateToken] at hsent
          obtain ⟨rfl, rfl, rfl, rfl, rfl⟩ := hsent
          have hby : findById store user._id = some user :=
            findById_of_mem store user hids (mem_of_findOne hf).1
          simp [getUser, tokenTruthy, hsign, resolveUser, tryResolve, hcodec, hby, Res.status,
            Res.json]

/-- Witness for C4: `ada` logs in and reads her profile back. -/
theorem login_getUser_roundtrip_witness :
    (getUser demoEnv [ada] { token := some "tt" }).error = none ∧
    (getUser demoEnv [ada] { token := some "tt" }).res.statusCode = 200 ∧
    (getUser demoEnv [ada] { token := some "tt" }).res.sent
      = some (.user 1 (.str "Ada") (.str "ada@x.com") (.str "555-0100") none) ∧
    (getUser demoEnv [ada] { token := some "tt" }).store = [ada] :=
  login_getUser_roundtrip demoEnv [ada]
    { email := .str "ada@x.com", password := .str "secret1" }
    1 (.str "Ada") (.str "ada@x.com") (.str "555-0100") "tt" (by simp [ada])
    demoEnv_verify_sign demoEnv_sign_ne (by decide) (by decide)


/-! ## Profile update -/

/-- After `save`, looking up the identifier of the saved document finds what was
persisted. -/
theorem findById_map_replace (store : Store) (id : Nat) (u saved : User)
    (hu : findById store id = some u) (hid : saved._id = id) :
    findById (store.map (fun x => if x._id = id then saved else x)) id = some saved := by
  unfold findById at hu ⊢
  induction store with
  | nil => simp at hu
  | cons x xs ih =>
    rw [List.map_cons, List.find?_cons]
    rw [List.find?_cons] at hu
    by_cases hx : x._id = id
    · simp [hx, hid]
    · have hd : decide (x._id = id) = false := decide_eq_false hx
      rw [hd] at hu
      simp only [hx, if_false, hd]
      exact ih hu

/-- With a token that verifies to the identifier of a stored user, the shared
`try`/`catch` yields that user and leaves the response untouched. -/
theorem resolveUser_ok (env : Env) (store : Store) (res : Res) (token : String) (id : Nat)
    (u : User) (hverify : env.verify token = some id) (hfound : findById store id = some u) :
    resolveUser env store res token = (res, .ok u) := by
  simp [resolveUser, tryResolve, hverify, hfound]

/-- What updateUser does for a stored user resolved from a valid token. -/
theorem updateUser_ok (env : Env) (store : Store) (req : Req)
    (token : String) (id : Nat) (u : User)
    (htoken : req.token = some token) (hne : token ≠ "")
    (hverify : env.verify token = some id) (hfound : findById store id = some u) :
    updateUser env store req =
      { res := { statusCode := 200,
                 sent := some (.user u._id (orElse req.name u.name) u.email
                          (orElse req.phone u.phone) none) },
        error := none,
        calls := [.save { u with name := orElse req.name u.name,
                                 phone := orElse req.phone u.phone }],
        store := store.map (fun x => if x._id = u._id
          then { u with name := orElse req.name u.name, phone := orElse req.phone u.phone }
          else x) } := by
  simp [updateUser, htoken, tokenTruthy, hne,
    resolveUser_ok env store _ token id u hverify hfound, save, Res.status, Res.json]

/-- C8: for a stored user resolved from a valid token, updateUser saves a document
whose name and phone are those of the body where present and non-empty and the
stored ones otherwise, and whose identifier, email and password are the stored
ones whatever the body holds; the 200 response carries the identifier, name,
email and phone of the saved document. -/
theorem updateUser_frame (env : Env) (store : Store) (req : Req)
    (token : String) (id : Nat) (u : User)
    (htoken : req.token = some token) (hne : token ≠ "")
    (hverify : env.verify token = some id) (hfound : findById store id = some u) :
    ∃ doc : User,
      (updateUser env store req).calls = [.save doc] ∧
      findById (updateUser env store req).store u._id = some doc ∧
      doc._id = u._id ∧ doc.email = u.email ∧ doc.password = u.password ∧
      (∀ n, req.name = .str n → n ≠ "" → doc.name = .str n) ∧
      (missingOrEmpty req.name → doc.name = u.name) ∧
      (∀ ph, req.phone = .str ph → ph ≠ "" → doc.phone = .str ph) ∧
      (missingOrEmpty req.phone → doc.phone = u.phone) ∧
      (updateUser env store req).error = none ∧
      (updateUser env store req).res.statusCode = 200 ∧
      (updateUser env store req).res.sent
        = some (.user doc._id doc.name doc.email doc.phone none) := by
  have hid : u._id = id := (mem_of_findById hfound).2
  rw [updateUser_ok env store req token id u htoken hne hverify hfound]
  refine ⟨{ u with name := orElse req.name u.name, phone := orElse req.phone u.phone },
    rfl, ?_, rfl, rfl, rfl, ?_, ?_, ?_, ?_, rfl, rfl, rfl⟩
  · exact findById_map_replace store u._id u _ (hid ▸ hfound) rfl
  · intro n hn hne2; simp [orElse, truthy, hn, hne2]
  · rintro (hn | hn | hn) <;> simp [orElse, truthy, hn]
  · intro ph hph hne2; simp [orElse, truthy, hph, hne2]
  · rintro (hph | hph | hph) <;> simp [orElse, truthy, hph]

/-- Witness for C8: `ada` changes her phone number and nothing else. -/
theorem updateUser_frame_witness :
    ∃ doc : User,
      (updateUser demoEnv [ada] adaUpdate).calls = [.save doc] ∧
      findById (updateUser demoEnv [ada] adaUpdate).store ada._id = some doc ∧
      doc._id = ada._id ∧ doc.email = ada.email ∧ doc.password = ada.password ∧
      (∀ n, adaUpdate.name = .str n → n ≠ "" → doc.name = .str n) ∧
      (missingOrEmpty adaUpdate.name → doc.name = ada.name) ∧
      (∀ ph, adaUpdate.phone = .str ph → ph ≠ "" → doc.phone = .str ph) ∧
      (missingOrEmpty adaUpdate.phone → doc.phone = ada.phone) ∧
      (updateUser demoEnv [ada] adaUpdate).error = none ∧
      (updateUser demoEnv [ada] adaUpdate).res.statusCode = 200 ∧
      (updateUser demoEnv [ada] adaUpdate).res.sent
        = some (.user doc._id doc.name doc.email doc.phone none) :=
  updateUser_frame demoEnv [ada] adaUpdate "tt" 1 ada rfl (by decide) (by decide) (by decide)

/-! ## Password change -/

/-- C9: on every request on which changePassword throws, no store call has been
made and the store, hence every stored password, is what it was; and when the
request reaches the comparison (token valid, user stored, both passwords
supplied) and the old password does not verify, the throw is "Old password is
incorrect" with status 400. -/
theorem changePassword_atomic (env : Env) (store : Store) (req : Req) :
    ((changePassword env store req).error ≠ none →
      (changePassword env store req).calls = [] ∧
      (changePassword env store req).store = store) ∧
    (∀ (token : String) (id : Nat) (u : User) (old new : String),
      req.token = some token → token ≠ "" → env.verify token = some id →
      findById store id = some u →
      req.oldPassword = .str old → old ≠ "" → req.password = .str new → new ≠ "" →
      bcryptCompare env (.str old) u.password = some false →
        (changePassword env store req).res.statusCode = 400 ∧
        (changePassword env store req).error = some "Old password is incorrect" ∧
        (changePassword env store req).calls = [] ∧
        (changePassword env store req).store = store) := by
  constructor
  · simp only [changePassword]
    by_cases ht : (!tokenTruthy req.token) = true
    · simp [ht, raise]
    · rw [if_neg ht]
      rcases hr : resolveUser env store {} (req.token.getD "") with ⟨res1, _ | user⟩
      · simp [raise]
      · simp only []
        by_cases hp : (!truthy req.oldPassword || !truthy req.password) = true
        · simp [hp, raise]
        · rw [if_neg hp]
          cases hc : bcryptCompare env req.oldPassword user.password with
          | none => simp [raise]
          | some ok => cases ok <;> simp [raise]
  · intro token id u old new htoken hne hverify hfound hold hone hnew hnne hc
    simp [changePassword, htoken, tokenTruthy, hne,
      resolveUser_ok env store _ token id u hverify hfound,
      hold, hnew, truthy, hone, hnne, hc, raise, Res.status]

/-- Witness for C9: `ada` submits a wrong old password. -/
theorem changePassword_atomic_witness :
    ((changePassword demoEnv [ada] adaWrongChange).calls = [] ∧
      (changePassword demoEnv [ada] adaWrongChange).store = [ada]) ∧
    ((changePassword demoEnv [ada] adaWrongChange).res.statusCode = 400 ∧
      (changePassword demoEnv [ada] adaWrongChange).error = some "Old password is incorrect" ∧
      (changePassword demoEnv [ada] adaWrongChange).calls = [] ∧
      (changePassword demoEnv [ada] adaWrongChange).store = [ada]) :=
  ⟨(changePassword_atomic demoEnv [ada] adaWrongChange).1 (by decide),
   (changePassword_atomic demoEnv [ada] adaWrongChange).2 "tt" 1 ada "guess" "secret2"
      rfl (by decide) (by decide) (by decide) rfl (by decide) rfl (by decide) (by decide)⟩

/-- After `save`, looking up the email of the saved document finds what was
persisted, provided the email led to that user before. -/
theorem findOne_map_replace (store : Store) (u saved : User)
    (hu : findOne store u.email = some u) (hemail : saved.email = u.email) :
    findOne (store.map (fun x => if x._id = u._id then saved else x)) u.email = some saved := by
  unfold findOne at hu ⊢
  induction store with
  | nil => simp at hu
  | cons x xs ih =>
    rw [List.map_cons, List.find?_cons]
    rw [List.find?_cons] at hu
    by_cases hx : x.email = u.email
    · have hd : decide (x.email = u.email) = true := decide_eq_true hx
      rw [hd] at hu
      have hxu : x = u := Option.some.inj hu
      simp [hxu, hemail]
    · have hd : decide (x.email = u.email) = false := decide_eq_false hx
      rw [hd] at hu
      by_cases hi : x._id = u._id
      · simp [hi, hemail]
      · simp only [hi, if_false, hd]
        exact ih hu

/-- What changePassword does when it does not throw. -/
theorem changePassword_ok (env : Env) (store : Store) (req : Req)
    (token : String) (id : Nat) (u : User)
    (htoken : req.token = some token) (hverify : env.verify token = some id)
    (hfound : findById store id = some u)
    (hok : (changePassword env store req).error = none) :
    (changePassword env store req).store
      = store.map (fun x => if x._id = u._id then { u with password := req.password } else x) ∧
    (changePassword env store req).res.statusCode = 200 ∧
    truthy req.oldPassword = true ∧ truthy req.password = true ∧
    bcryptCompare env req.oldPassword u.password = some true := by
  by_cases hne : token = ""
  · simp [changePassword, htoken, tokenTruthy, hne, raise] at hok
  · by_cases hp : (!truthy req.oldPassword || !truthy req.password) = true
    · simp [changePassword, htoken, tokenTruthy, hne,
        resolveUser_ok env store _ token id u hverify hfound, hp, raise] at hok
    · have hp2 : truthy req.oldPassword = true ∧ truthy req.password = true := by
        simpa using hp
      cases hc : bcryptCompare env req.oldPassword u.password with
      | none =>
        simp [changePassword, htoken, tokenTruthy, hne,
          resolveUser_ok env store _ token id u hverify hfound, hp2, hc, raise] at hok
      | some ok =>
        cases ok
        · simp [changePassword, htoken, tokenTruthy, hne,
            resolveUser_ok env store _ token id u hverify hfound, hp2, hc, raise] at hok
        · simp [changePassword, htoken, tokenTruthy, hne,
            resolveUser_ok env store _ token id u hverify hfound, hp2, hc, save, Res.status,
            Res.json]

/-- The toy hasher meets the hasher contract: a candidate verifies against a hash
exactly when it is the hashed plaintext. -/
theorem demoEnv_compare_hash (p q : String) :
    demoEnv.compare p (demoEnv.hash q) = true ↔ p = q := by
  simp only [demoEnv, decide_eq_true_eq]
  constructor
  · intro h
    have hd := congrArg String.data h
    simp only [String.data_append, List.append_cancel_left_eq] at hd
    exact (String.ext hd).symm
  · rintro rfl; rfl

/-- C10, as stated, fails: `ada` is stored with the hash of "secret1", so the old
password "secret1" verifies, and the new password "secret2" differs from it;
changePassword succeeds and persists the string "secret2" as it was submitted;
loginUser with the new password then throws "Invalid email or password" with
status 400, because "secret2" does not verify against itself. -/
theorem new_password_login_fails_example :
    bcryptCompare demoEnv (.str "secret1") ada.password = some true ∧
    (changePassword demoEnv [ada] adaChange).error = none ∧
    (changePassword demoEnv [ada] adaChange).res.statusCode = 200 ∧
    (changePassword demoEnv [ada] adaChange).store = [{ ada with password := .str "secret2" }] ∧
    demoEnv.compare "secret2" "secret2" = false ∧
    (loginUser demoEnv (changePassword demoEnv [ada] adaChange).store
        { email := .str "ada@x.com", password := .str "secret2" }).res.statusCode = 400 ∧
    (loginUser demoEnv (changePassword demoEnv [ada] adaChange).store
        { email := .str "ada@x.com", password := .str "secret2" }).error
      = some "Invalid email or password" := by
  decide

/-- C10, amended: in a store whose emails are pairwise distinct, after a stored
user with a truthy email changes the password from an old one to a new one, the
record holds the new password as it was submitted; loginUser with the user's
email and the new password responds 200 exactly when the new password verifies
against itself as stored, and loginUser with the old password throws with
status 400 exactly when the old password does not verify against the stored new
one. -/
theorem changePassword_then_login (env : Env) (store : Store) (req : Req)
    (token : String) (id : Nat) (u : User) (old new : String)
    (hemails : store.Pairwise (fun a b => a.email ≠ b.email))
    (hemail : truthy u.email = true)
    (htoken : req.token = some token) (hverify : env.verify token = some id)
    (hfound : findById store id = some u)
    (hold : req.oldPassword = .str old) (hnew : req.password = .str new)
    (hok : (changePassword env store req).error = none) :
    findOne (changePassword env store req).store u.email
      = some { u with password := .str new } ∧
    (((loginUser env (changePassword env store req).store
          { email := u.email, password := .str new }).error = none ∧
      (loginUser env (changePassword env store req).store
          { email := u.email, password := .str new }).res.statusCode = 200) ↔
        env.compare new new = true) ∧
    (((loginUser env (changePassword env store req).store
          { email := u.email, password := .str old }).error ≠ none ∧
      (loginUser env (changePassword env store req).store
          { email := u.email, password := .str old }).res.statusCode = 400) ↔
        env.compare old new = false) := by
  obtain ⟨hstore, -, hto, htn, -⟩ :=
    changePassword_ok env store req token id u htoken hverify hfound hok
  rw [hnew] at hstore htn
  rw [hold] at hto
  have hone : findOne store u.email = some u :=
    findOne_of_mem store u hemails (mem_of_findById hfound).1
  have hfind := findOne_map_replace store u { u with password := .str new } hone rfl
  rw [← hstore] at hfind
  refine ⟨hfind, ?_, ?_⟩
  · cases hc : env.compare new new <;>
      simp [loginUser, hemail, htn, hfind, bcryptCompare, hc, raise, Res.status, Res.json,
        Res.setCookie]
  · cases hc : env.compare old new <;>
      simp [loginUser, hemail, hto, hfind, bcryptCompare, hc, raise, Res.status, Res.json,
        Res.setCookie]

/-- Witness for C10: `ada` changes her password from "secret1" to "secret2". -/
theorem changePassword_then_login_witness :
    findOne (changePassword demoEnv [ada] adaChange).store ada.email
      = some { ada with password := .str "secret2" } ∧
    (((loginUser demoEnv (changePassword demoEnv [ada] adaChange).store
          { email := ada.email, password := .str "secret2" }).error = none ∧
      (loginUser demoEnv (changePassword demoEnv [ada] adaChange).store
          { email := ada.email, password := .str "secret2" }).res.statusCode = 200) ↔
        demoEnv.compare "secret2" "secret2" = true) ∧
    (((loginUser demoEnv (changePassword demoEnv [ada] adaChange).store
          { email := ada.email, password := .str "secret1" }).error ≠ none ∧
      (loginUser demoEnv (changePassword demoEnv [ada] adaChange).store
          { email := ada.email, password := .str "secret1" }).res.statusCode = 400) ↔
        demoEnv.compare "secret1" "secret2" = false) :=
  changePassword_then_login demoEnv [ada] adaChange "tt" 1 ada "secret1" "secret2"
    (by simp [ada]) (by decide) rfl (by decide) (by decide) rfl rfl (by decide)


/-! ## The store invariant is kept by every handler -/

theorem lt_nextId (store : Store) : ∀ u ∈ store, u._id < nextId store := by
  unfold nextId
  induction store with
  | nil => intro u hu; cases hu
  | cons x xs ih =>
    intro u hu
    simp only [List.map_cons, List.foldr_cons]
    rcases List.mem_cons.mp hu with rfl | hmem
    · omega
    · have := ih u hmem
      omega

theorem storeInv_nil : StoreInv [] := by
  simp [StoreInv]

theorem storeInv_create (store : Store) (name email password phone : Value)
    (hinv : StoreInv store) (hemail : truthy email = true)
    (hfree : findOne store email = none) :
    StoreInv (create store name email password phone).1 := by
  obtain ⟨hids, hemails, hne⟩ := hinv
  have hfree2 : ∀ u ∈ store, u.email ≠ email := by
    intro u hu
    unfold findOne at hfree
    simpa using List.find?_eq_none.mp hfree u hu
  refine ⟨?_, ?_, ?_⟩
  · simp only [create]
    rw [List.pairwise_append]
    refine ⟨hids, List.pairwise_singleton _ _, ?_⟩
    intro a ha b hb
    rw [List.mem_singleton] at hb
    subst hb
    exact Nat.ne_of_lt (lt_nextId store a ha)
  · simp only [create]
    rw [List.pairwise_append]
    refine ⟨hemails, List.pairwise_singleton _ _, ?_⟩
    intro a ha b hb
    rw [List.mem_singleton] at hb
    subst hb
    exact hfree2 a ha
  · intro u hu
    simp only [create, List.mem_append, List.mem_singleton] at hu
    rcases hu with hu | rfl
    · exact hne u hu
    · exact hemail

theorem storeInv_save (store : Store) (u doc : User)
    (hinv : StoreInv store) (hid : doc._id = u._id) (hemail : doc.email = u.email)
    (hu : u ∈ store) :
    StoreInv (save store doc).1 := by
  obtain ⟨hids, hemails, hne⟩ := hinv
  have huniq : ∀ a ∈ store, a._id = u._id → a = u := by
    intro a ha hau
    by_contra hne2
    exact (hids.forall (fun _ _ h => Ne.symm h)) ha hu hne2 hau
  have hkey : ∀ a ∈ store,
      (if a._id = doc._id then doc else a)._id = a._id ∧
      (if a._id = doc._id then doc else a).email = a.email := by
    intro a ha
    by_cases h : a._id = doc._id
    · have hau : a = u := huniq a ha (h.trans hid)
      simp [h, hau, hid, hemail]
    · simp [h]
  refine ⟨?_, ?_, ?_⟩
  · simp only [save]
    rw [List.pairwise_map]
    refine hids.imp_of_mem ?_
    intro a b ha hb hab
    rw [(hkey a ha).1, (hkey b hb).1]
    exact hab
  · simp only [save]
    rw [List.pairwise_map]
    refine hemails.imp_of_mem ?_
    intro a b ha hb hab
    rw [(hkey a ha).2, (hkey b hb).2]
    exact hab
  · intro v hv
    simp only [save, List.mem_map] at hv
    obtain ⟨a, ha, rfl⟩ := hv
    rw [(hkey a ha).2]
    exact hne a ha

theorem resolveUser_mem (env : Env) (store : Store) (res res1 : Res) (token : String)
    (user : User) (h : resolveUser env store res token = (res1, .ok user)) : user ∈ store := by
  unfold resolveUser tryResolve at h
  cases hv : env.verify token with
  | none => simp [hv] at h
  | some id =>
    cases hf : findById store id with
    | none => simp [hv, hf] at h
    | some u =>
      simp [hv, hf] at h
      exact h.2 ▸ (mem_of_findById hf).1

/-- Every handler keeps the store invariant: starting from a store with distinct
identifiers, distinct emails and no falsy email, the store a handler leaves
behind is again such a store. -/
theorem handlers_keep_storeInv (env : Env) (store : Store) (req : Req)
    (hinv : StoreInv store) :
    StoreInv (registerUser env store req).store ∧
    StoreInv (loginUser env store req).store ∧
    StoreInv (getUser env store req).store ∧
    StoreInv (loginStatus env store req).store ∧
    StoreInv (updateUser env store req).store ∧
    StoreInv (changePassword env store req).store := by
  refine ⟨?_, ?_, ?_, ?_, ?_, ?_⟩
  · simp only [registerUser]
    by_cases h1 : (!truthy req.name || !truthy req.email || !truthy req.password
        || !truthy req.phone) = true
    · rw [if_pos h1]; exact hinv
    · rw [if_neg h1]
      by_cases h2 : lengthBelow req.password 6 = true
      · rw [if_pos h2]; exact hinv
      · rw [if_neg h2]
        cases hf : findOne store req.email with
        | some u => exact hinv
        | none =>
          have he : truthy req.email = true := by
            simp only [Bool.or_eq_true, Bool.not_eq_true', not_or, Bool.not_eq_false] at h1
            exact h1.1.1.2
          exact storeInv_create store _ _ _ _ hinv he hf
  · simp only [loginUser]
    by_cases h1 : (!truthy req.email || !truthy req.password) = true
    · rw [if_pos h1]; exact hinv
    · rw [if_neg h1]
      cases hf : findOne store req.email with
      | none => exact hinv
      | some u =>
        simp only []
        cases hc : bcryptCompare env req.password u.password with
        | none => exact hinv
        | some ok => cases ok <;> exact hinv
  · simp only [getUser]
    split_ifs
    · exact hinv
    · rcases hr : resolveUser env store {} (req.token.getD "") with ⟨res1, _ | user⟩ <;>
        exact hinv
  · simp only [loginStatus]
    split_ifs
    · exact hinv
    · cases hv : env.verify (req.token.getD "") <;> exact hinv
  · simp only [updateUser]
    split_ifs
    · exact hinv
    · rcases hr : resolveUser env store {} (req.token.getD "") with ⟨res1, _ | user⟩
      · exact hinv
      · exact storeInv_save store user _ hinv rfl rfl
          (resolveUser_mem env store _ res1 _ user hr)
  · simp only [changePassword]
    by_cases ht : (!tokenTruthy req.token) = true
    · rw [if_pos ht]; exact hinv
    · rw [if_neg ht]
      rcases hr : resolveUser env store {} (req.token.getD "") with ⟨res1, _ | user⟩
      · exact hinv
      · simp only []
        by_cases hp : (!truthy req.oldPassword || !truthy req.password) = true
        · rw [if_pos hp]; exact hinv
        · rw [if_neg hp]
          cases hc : bcryptCompare env req.oldPassword user.password with
          | none => exact hinv
          | some ok =>
            cases ok
            · exact hinv
            · exact storeInv_save store user _ hinv rfl rfl
                (resolveUser_mem env store _ res1 _ user hr)

end Hacktron
